import Mathlib

/-!
Shallow embedding of the agri-pipeline enrichment-and-quality-assurance core
(`pipeline/transform.py`, `pipeline/validation.py`, `pipeline/utils.py`).

Sensor values are modelled as rationals (`ℚ`); nullable columns as `Option`.
The outlier stage computes a population standard deviation, i.e. a square
root, so its outputs live in `ℝ`.  Pandas' `fillna`/`ffill`/`bfill`,
`groupby ... transform/apply`, `merge` on a key whose right side is unique,
and DuckDB's grouped aggregation are modelled by explicit list recursion,
per-row group lookups, and key-indexed functions.
-/

namespace AgriPipeline

/-- Arithmetic mean of a list, `sum / length` (division by zero yields 0,
matching the fact that the code never takes a mean of an empty group). -/
def listMean {α : Type} [Field α] (l : List α) : α :=
  l.sum / (l.length : α)

/-! ### Configuration tables (`pipeline/utils.py`) -/

/-- The `CALIBRATION` table: `reading_type → (multiplier, offset)`, with the
`dict.get` default `(1.0, 0.0)` for types without a configured entry
(`transform.py` line 25). -/
def CALIBRATION (t : String) : ℚ × ℚ :=
  if t = "temperature" then (101/100, -1/5)
  else if t = "humidity" then (1, 0)
  else if t = "soil_moisture" then (49/50, 1/2)
  else if t = "light_intensity" then (1, 0)
  else (1, 0)

/-- The `EXPECTED_RANGES` table: `reading_type → some (min, max)` for
configured types, `none` otherwise. -/
def EXPECTED_RANGES (t : String) : Option (ℚ × ℚ) :=
  if t = "temperature" then some (-10, 60)
  else if t = "humidity" then some (0, 100)
  else if t = "soil_moisture" then some (0, 1)
  else if t = "light_intensity" then some (0, 2000)
  else if t = "battery_level" then some (0, 100)
  else none

/-! ### Calibration stage (`_apply_calibration`) -/

/-- Row-local calibration: `value * multiplier + offset`, null propagating
(`row["value"]` of NaN stays NaN through the linear map). -/
def calibrate (t : String) (v : Option ℚ) : Option ℚ :=
  v.map (fun x => x * (CALIBRATION t).1 + (CALIBRATION t).2)

/-! ### Anomaly flagging stage (`_flag_anomaly`) -/

/-- The per-row `is_anom` predicate: `False` when no range is configured or
the calibrated value is null, otherwise `value < min or value > max`. -/
def isAnom (t : String) (v : Option ℚ) : Bool :=
  match EXPECTED_RANGES t, v with
  | none, _ => false
  | some _, none => false
  | some r, some x => decide (x < r.1) || decide (r.2 < x)

/-! ### Outlier stage (`_zscore_outliers`) -/

/-- Population mean of a group of calibrated values (`s.mean()`). -/
def popMean (l : List ℚ) : ℚ :=
  l.sum / (l.length : ℚ)

/-- Population variance, denominator = group size (`ddof=0`). -/
def popVar (l : List ℚ) : ℚ :=
  ((l.map (fun x => (x - popMean l) ^ 2)).sum) / (l.length : ℚ)

/-- Population standard deviation `s.std(ddof=0)`: the square root of the
population variance, hence real-valued. -/
noncomputable def popStd (l : List ℚ) : ℝ :=
  Real.sqrt ((popVar l : ℝ))

/-- Pandas `Series.clip(lower=lo, upper=hi)`: apply the lower bound, then
the upper bound. -/
noncomputable def clip (x lo hi : ℝ) : ℝ :=
  min (max x lo) hi

/-- One member's `zscore` under `groupby("reading_type").transform(zscore)`:
0 when the group's std is 0 or the group has fewer than 3 members,
otherwise `(x − mean) / std` (`transform.py` lines 66-70). -/
noncomputable def zscoreOf (l : List ℚ) (v : ℚ) : ℝ :=
  if popVar l = 0 ∨ l.length < 3 then 0
  else ((v : ℝ) - (popMean l : ℝ)) / popStd l

/-- One member's `value_corrected` under the grouped `correct` function:
the calibrated value unchanged when the group std is 0 or NaN (empty
group), otherwise clipped to `[mean − 3 std, mean + 3 std]`
(`transform.py` lines 71-79). -/
noncomputable def correctOf (l : List ℚ) (v : ℚ) : ℝ :=
  if l.length = 0 ∨ popVar l = 0 then (v : ℝ)
  else clip (v : ℝ) ((popMean l : ℝ) - 3 * popStd l) ((popMean l : ℝ) + 3 * popStd l)

/-! ### Battery-level imputation (`transform_data`, lines 169-171) -/

/-- Forward fill (`fillna(method="ffill")`), carrying the last non-null
value seen so far (`last` is the carry, initially none). -/
def ffillAux (last : Option ℚ) : List (Option ℚ) → List (Option ℚ)
  | [] => []
  | x :: xs =>
    match x with
    | some v => some v :: ffillAux (some v) xs
    | none => last :: ffillAux last xs

/-- Forward fill of a column. -/
def ffillCol (l : List (Option ℚ)) : List (Option ℚ) :=
  ffillAux none l

/-- Backward fill (`fillna(method="bfill")`): forward fill of the reversed
column, reversed back. -/
def bfillCol (l : List (Option ℚ)) : List (Option ℚ) :=
  (ffillAux none l.reverse).reverse

/-- Pandas `Series.mean()`: mean of the non-null entries, NaN (modelled as
`none`) when there are none. -/
def colMean (l : List (Option ℚ)) : Option ℚ :=
  let vs := l.filterMap id
  if vs.length = 0 then none else some (vs.sum / (vs.length : ℚ))

/-- Pandas `fillna(scalar)`: replace nulls by the scalar; a NaN scalar
(modelled as `none`) leaves nulls in place. -/
def fillConst (l : List (Option ℚ)) (v : Option ℚ) : List (Option ℚ) :=
  l.map (fun x => match x with | some a => some a | none => v)

/-- The battery-level imputation of the orchestrator: if the column has any
null, `fillna(ffill).fillna(bfill).fillna(column mean)`, where the mean is
taken over the original column. -/
def imputeBattery (l : List (Option ℚ)) : List (Option ℚ) :=
  if l.any (fun x => x.isNone) then fillConst (bfillCol (ffillCol l)) (colMean l)
  else l

/-! ### Timestamp normalization stage (`_timestamp_processing`) -/

/-- IST offset from UTC in seconds: +5:30. -/
def istOffset : ℤ := 19800

/-- Civil calendar from days since the Unix epoch (proleptic Gregorian),
returning `(year, month, day)`; the standard days-to-civil algorithm. -/
def civilFromDays (z : ℤ) : ℤ × ℤ × ℤ :=
  let z' := z + 719468
  let era : ℤ := (if 0 ≤ z' then z' else z' - 146096) / 146097
  let doe : ℤ := z' - era * 146097
  let yoe : ℤ := (doe - doe / 1460 + doe / 36524 - doe / 146096) / 365
  let y : ℤ := yoe + era * 400
  let doy : ℤ := doe - (365 * yoe + yoe / 4 - yoe / 100)
  let mp : ℤ := (5 * doy + 2) / 153
  let d : ℤ := doy - (153 * mp + 2) / 5 + 1
  let m : ℤ := mp + (if mp < 10 then 3 else -9)
  (y + (if m ≤ 2 then 1 else 0), m, d)

/-- Zero-padded two-digit rendering of a (nonnegative) integer. -/
def pad2 (n : ℤ) : String :=
  if n < 10 then "0" ++ toString n else toString n

/-- Date rendering `YYYY-MM-DD` of a day index (strftime `%Y-%m-%d`). -/
def dateStr (days : ℤ) : String :=
  let c := civilFromDays days
  toString c.1 ++ "-" ++ pad2 c.2.1 ++ "-" ++ pad2 c.2.2

/-- ISO rendering `%Y-%m-%dT%H:%M:%S%z` of a local-second count in IST:
the `%z` suffix for Asia/Kolkata is `+0530`. -/
def isoStr (localSec : ℤ) : String :=
  let days := localSec / 86400
  let rem := localSec % 86400
  dateStr days ++ "T" ++ pad2 (rem / 3600) ++ ":" ++ pad2 ((rem / 60) % 60)
    ++ ":" ++ pad2 (rem % 60) ++ "+0530"

/-- The four columns added by `_timestamp_processing`, for one row; a null
column entry is `none`.  Instants are UTC epoch seconds.  A null (`NaT`)
`timestamp_ist` renders in `timestamp_iso` as NaN (`none`) but in `date` —
via `.dt.date.astype(str)`, which stringifies every entry — as the
non-null literal string `"NaT"`. -/
structure TsOut where
  timestamp_ist : Option ℤ
  timestamp_iso : Option String
  date : Option String
  hour : Option ℤ
deriving DecidableEq

/-- The timestamp stage on one row, given the parse result of
`pd.to_datetime(..., utc=True, errors="coerce")` (`none` = NaT).
`timestamp_ist` is the same instant (converted to IST for display),
`timestamp_iso` its strftime rendering in IST, `date` the IST calendar
date as a string, `hour` the instant floored to the IST hour. -/
def tsProcess (parsed : Option ℤ) : TsOut :=
  match parsed with
  | none => ⟨none, none, some "NaT", none⟩
  | some t =>
    let ls := t + istOffset
    ⟨some t, some (isoStr ls), some (dateStr (ls / 86400)),
      some (t - ls % 3600)⟩

/-! ### Aggregation stage (`_aggregations`)

The stage is generic in the numeric type of `value_corrected` (the full
pipeline instantiates it at `ℝ`).  Dates are the `YYYY-MM-DD` strings of
the `date` column; the code sorts them as strings (`sort_values` runs
before the `to_datetime` conversion), which is the lexicographic order. -/

/-- One row as seen by the aggregation stage: the group-key columns and
`value_corrected`. -/
structure ARow (α : Type) where
  sensor : String
  rtype : String
  date : String
  value : α
deriving DecidableEq

/-- Rows of one (`sensor_id`, `reading_type`, `date`) group. -/
def groupRows {α : Type} (rows : List (ARow α)) (s t d : String) : List (ARow α) :=
  rows.filter (fun r => decide (r.sensor = s ∧ r.rtype = t ∧ r.date = d))

/-- `daily_avg` for a (`sensor_id`, `reading_type`, `date`) key: the mean of
`value_corrected` over exactly that group (`groupby(...).mean()`), merged
back onto every row by a left join on the key. -/
def dailyAvg {α : Type} [Field α] (rows : List (ARow α)) (s t d : String) : α :=
  listMean ((groupRows rows s t d).map (fun r => r.value))

/-- The distinct dates of one (`sensor_id`, `reading_type`) series, sorted
ascending (`drop_duplicates` + `sort_values`). -/
def dailySeries {α : Type} (rows : List (ARow α)) (s t : String) : List String :=
  (((rows.filter (fun r => decide (r.sensor = s ∧ r.rtype = t))).map
      (fun r => r.date)).dedup).insertionSort (fun a b => a ≤ b)

/-- Trailing window of index `i`: the current entry plus up to 6 preceding
entries (`rolling(7, min_periods=1)`). -/
def window7 {α : Type} (l : List α) (i : ℕ) : List α :=
  (l.take (i + 1)).drop (i + 1 - 7)

/-- `rolling(7, min_periods=1).mean()` over a series: entry `i` is the mean
of the window of the current plus up to 6 preceding entries. -/
def rolling7 {α : Type} [Field α] (l : List α) : List α :=
  (List.range l.length).map (fun i => listMean (window7 l i))

/-- `rolling_7d` for a (`sensor_id`, `reading_type`, `date`) key: position
of the date in the sorted distinct-date series, then the rolling mean of
the per-date `daily_avg` values at that position; broadcast back to every
row of the key by a left join. -/
def rollingAt {α : Type} [Field α] (rows : List (ARow α)) (s t d : String) : α :=
  (rolling7 ((dailySeries rows s t).map (fun x => dailyAvg rows s t x))).getD
    ((dailySeries rows s t).indexOf d) 0

/-- The whole aggregation stage: every row, kept in order, paired with its
group's `daily_avg` and its key's `rolling_7d`. -/
def aggStage {α : Type} [Field α] (rows : List (ARow α)) : List (ARow α × α × α) :=
  rows.map (fun r =>
    (r, dailyAvg rows r.sensor r.rtype r.date, rollingAt rows r.sensor r.rtype r.date))

/-! ### Gap analysis (`validation.py`, the `gaps` query)

Timestamps are minutes; `date_trunc('hour', ts)` is division by 60.  For a
(`sensor_id`, `reading_type`) pair the query takes the hour-truncated min
and max parsed timestamp as bounds, generates every hour between them, and
left-joins the distinct observed hours. -/

/-- `date_trunc('hour', ts)` on a minute-valued timestamp. -/
def truncHour (m : ℕ) : ℕ := m / 60

/-- The `gaps` result row for one (`sensor_id`, `reading_type`) pair, from
its list of `try_cast(timestamp AS TIMESTAMP)` results (`none` =
unparsable): `(expected_hours, actual_hours, missing_hours)`, or `none`
when no timestamp parses (NULL bounds generate no expected rows, so the
pair is absent from the result). -/
def gapStats (ts : List (Option ℕ)) : Option (ℕ × ℕ × ℕ) :=
  match (ts.filterMap id).map truncHour with
  | [] => none
  | h :: rest =>
    let lo := rest.foldl min h
    let hi := rest.foldl max h
    let expected := hi + 1 - lo
    let actual := (h :: rest).dedup.length
    some (expected, actual, expected - actual)

/-! ### Validation engine (`validate_data`) -/

/-- One row as seen by the validation engine. -/
structure VRow where
  sensor_id : String
  reading_type : String
  timestamp : Option String
  value : Option ℚ

/-- The quality report: the unparsable-timestamp count of `type_checks`,
the `gaps` table (one row per (`sensor_id`, `reading_type`) pair with a
parsable timestamp), and the `profile` table (per `reading_type`: total
rows, null values). -/
structure QReport where
  unparsable_timestamp_rows : ℕ
  gaps : List (String × String × (ℕ × ℕ × ℕ))
  profile : List (String × ℕ × ℕ)

/-- The report body, computed over a non-empty dataset with a timestamp
parser (`try_cast` to minutes). -/
def buildReport (parse : String → Option ℕ) (rows : List VRow) : QReport :=
  let parseTs : Option String → Option ℕ := fun o => o.bind parse
  let keys := (rows.map (fun r => (r.sensor_id, r.reading_type))).dedup
  let types := (rows.map (fun r => r.reading_type)).dedup
  { unparsable_timestamp_rows :=
      (rows.filter (fun r => (parseTs r.timestamp).isNone)).length
    gaps := keys.filterMap (fun k =>
      (gapStats ((rows.filter (fun r =>
          decide (r.sensor_id = k.1 ∧ r.reading_type = k.2))).map
            (fun r => parseTs r.timestamp))).map (fun g => (k.1, k.2, g)))
    profile := types.map (fun t =>
      let g := rows.filter (fun r => decide (r.reading_type = t))
      (t, g.length, (g.filter (fun r => r.value.isNone)).length)) }

/-- `validate_data`: a null or empty dataset short-circuits — no
computation, no report artifact, the distinguishable result `none`;
otherwise the report is built and written (`some report`). -/
def validate_data (parse : String → Option ℕ) (df : Option (List VRow)) :
    Option QReport :=
  match df with
  | none => none
  | some rows => if rows.isEmpty then none else some (buildReport parse rows)

/-! ### Transform orchestrator (`transform_data`) -/

/-- One raw ingested row; every field nullable as in the raw dataframe. -/
structure RawRow where
  sensor_id : Option String
  timestamp : Option String
  reading_type : Option String
  value : Option ℚ
  battery_level : Option ℚ
deriving DecidableEq

/-- The `drop_duplicates` subset key. -/
def rawKey (r : RawRow) : Option String × Option String × Option String :=
  (r.sensor_id, r.timestamp, r.reading_type)

/-- `drop_duplicates(subset=["sensor_id","timestamp","reading_type"])`:
keep the first row of each key (pandas treats equal NaN keys as
duplicates, matching `Option` equality). -/
def dropDuplicates (seen : List (Option String × Option String × Option String)) :
    List RawRow → List RawRow
  | [] => []
  | r :: rs =>
    if rawKey r ∈ seen then dropDuplicates seen rs
    else r :: dropDuplicates (rawKey r :: seen) rs

/-- `dropna(subset=["sensor_id","timestamp","reading_type","value"])`
keeps a row iff all four are non-null. -/
def hasKeys (r : RawRow) : Bool :=
  r.sensor_id.isSome && r.timestamp.isSome && r.reading_type.isSome && r.value.isSome

/-- Battery imputation applied to the rows: the column is extracted,
imputed, and written back positionally. -/
def imputeRows (rs : List RawRow) : List RawRow :=
  List.zipWith (fun b r => { r with battery_level := b })
    (imputeBattery (rs.map (fun r => r.battery_level))) rs

/-- Calibrated value of a cleaned row (fields non-null after `dropna`;
`getD` defaults are never hit on the pipeline's input). -/
def calibOf (r : RawRow) : ℚ :=
  let t := r.reading_type.getD ""
  (r.value.getD 0) * (CALIBRATION t).1 + (CALIBRATION t).2

/-- The `value_calibrated` column of the rows sharing `r`'s
`reading_type` — the group seen by `groupby("reading_type")`. -/
def groupCalib (rows : List RawRow) (r : RawRow) : List ℚ :=
  (rows.filter (fun x => x.reading_type == r.reading_type)).map calibOf

/-- A fully transformed row. -/
structure TRow where
  sensor_id : String
  reading_type : String
  battery_level : Option ℚ
  value_calibrated : ℚ
  zscore : ℝ
  value_corrected : ℝ
  anomalous_reading : Bool
  ts : TsOut
  daily_avg : ℝ
  rolling_7d : ℝ

/-- The aggregation-stage view of a cleaned row list: key columns plus the
real-valued `value_corrected`. -/
noncomputable def aggRows (parse : String → Option ℤ) (rows : List RawRow) :
    List (ARow ℝ) :=
  rows.map (fun x =>
    { sensor := x.sensor_id.getD ""
      rtype := x.reading_type.getD ""
      date := (tsProcess (x.timestamp.bind parse)).date.getD "NaT"
      value := correctOf (groupCalib rows x) (calibOf x) })

/-- Stages 1-5 on one cleaned row, with the whole cleaned list supplying
the groups (`groupby` transforms and the merges back on group keys). -/
noncomputable def transformRow (parse : String → Option ℤ) (rows : List RawRow)
    (r : RawRow) : TRow :=
  let t := r.reading_type.getD ""
  let vcal := calibOf r
  let grp := groupCalib rows r
  let tso := tsProcess (r.timestamp.bind parse)
  let ar := aggRows parse rows
  { sensor_id := r.sensor_id.getD ""
    reading_type := t
    battery_level := r.battery_level
    value_calibrated := vcal
    zscore := zscoreOf grp vcal
    value_corrected := correctOf grp vcal
    anomalous_reading := isAnom t (some vcal)
    ts := tso
    daily_avg := dailyAvg ar (r.sensor_id.getD "") t (tso.date.getD "NaT")
    rolling_7d := rollingAt ar (r.sensor_id.getD "") t (tso.date.getD "NaT") }

/-- `transform_data`: `None` or an empty dataset returns an empty dataset
unchanged; otherwise drop duplicates, drop null-key rows, impute
battery_level, then run calibration → outliers → anomaly flagging →
timestamps → aggregations. -/
noncomputable def transform_data (parse : String → Option ℤ)
    (raw : Option (List RawRow)) : List TRow :=
  match raw with
  | none => []
  | some rows =>
    if rows.isEmpty then []
    else
      let d := imputeRows ((dropDuplicates [] rows).filter hasKeys)
      d.map (transformRow parse d)

/-! ## Helper lemmas -/

theorem ffillAux_all_none (l : List (Option ℚ)) (h : ∀ x ∈ l, x = none) :
    ffillAux none l = l := by
  induction l with
  | nil => rfl
  | cons x xs ih =>
    have hx : x = none := h x (by simp)
    subst hx
    simp [ffillAux, ih (fun y hy => h y (by simp [hy]))]

theorem fillConst_none (l : List (Option ℚ)) : fillConst l none = l := by
  induction l with
  | nil => rfl
  | cons x xs ih =>
    cases x <;> simp [fillConst] <;> simpa [fillConst] using ih

theorem filterMap_id_all_none (l : List (Option ℚ)) (h : ∀ x ∈ l, x = none) :
    l.filterMap id = [] := by
  induction l with
  | nil => rfl
  | cons x xs ih =>
    have hx : x = none := h x (by simp)
    subst hx
    simpa using ih (fun y hy => h y (by simp [hy]))

/-! ## Claims -/

/-- C9: calibration is the per-type linear map `value * multiplier + offset`,
with the default `(1, 0)` for unconfigured types, null propagating, and
calibrating temperature 25.0 with multiplier 1.01 and offset −0.2 gives
25.05 within 1e-6. -/
theorem calibration_linear (t : String) (x : ℚ)
    (h1 : t ≠ "temperature") (h2 : t ≠ "humidity")
    (h3 : t ≠ "soil_moisture") (h4 : t ≠ "light_intensity") :
    calibrate t (some x) = some (x * (CALIBRATION t).1 + (CALIBRATION t).2) ∧
    calibrate t none = none ∧
    CALIBRATION t = (1, 0) ∧
    CALIBRATION "temperature" = (101/100, -1/5) ∧
    (∃ y : ℚ, calibrate "temperature" (some 25) = some y ∧
      |y - 2505/100| ≤ 1/1000000) := by
  refine ⟨rfl, rfl, ?_, rfl, ⟨2505/100, ?_, by norm_num⟩⟩
  · simp [CALIBRATION, h1, h2, h3, h4]
  · simp [calibrate, CALIBRATION]
    norm_num

/-- Witness for C9 at the unconfigured type `"pressure"` and raw value 3. -/
theorem calibration_linear_witness :
    ("pressure" ≠ "temperature" ∧ "pressure" ≠ "humidity" ∧
      "pressure" ≠ "soil_moisture" ∧ "pressure" ≠ "light_intensity") ∧
    (calibrate "pressure" (some 3) =
        some (3 * (CALIBRATION "pressure").1 + (CALIBRATION "pressure").2) ∧
      calibrate "pressure" none = none ∧
      CALIBRATION "pressure" = (1, 0) ∧
      CALIBRATION "temperature" = (101/100, -1/5) ∧
      (∃ y : ℚ, calibrate "temperature" (some 25) = some y ∧
        |y - 2505/100| ≤ 1/1000000)) :=
  ⟨⟨by decide, by decide, by decide, by decide⟩,
    calibration_linear "pressure" 3 (by decide) (by decide) (by decide) (by decide)⟩

/-- C2: battery imputation is forward fill, then backward fill, then the
original column's mean, in that order; on `[90, null, null, 70]` forward
fill alone already produces `[90, 90, 90, 70]`, which is the imputed
result. -/
theorem battery_impute_order
    (l : List (Option ℚ)) (h : l.any (fun x => x.isNone) = true) :
    imputeBattery l = fillConst (bfillCol (ffillCol l)) (colMean l) ∧
    ffillCol [some 90, none, none, some 70] = [some 90, some 90, some 90, some 70] ∧
    imputeBattery [some 90, none, none, some 70] =
      [some 90, some 90, some 90, some 70] := by
  refine ⟨?_, by decide, by decide⟩
  simp [imputeBattery, h]

/-- Witness for C2 at the spec's concrete column. -/
theorem battery_impute_order_witness :
    (([some 90, none, none, some 70] : List (Option ℚ)).any
        (fun x => x.isNone) = true) ∧
    (imputeBattery [some 90, none, none, some 70] =
        fillConst (bfillCol (ffillCol [some 90, none, none, some 70]))
          (colMean [some 90, none, none, some 70]) ∧
      ffillCol [some 90, none, none, some 70] =
        [some 90, some 90, some 90, some 70] ∧
      imputeBattery [some 90, none, none, some 70] =
        [some 90, some 90, some 90, some 70]) :=
  ⟨by decide, battery_impute_order [some 90, none, none, some 70] (by decide)⟩

/-- C10: an entirely null battery column stays entirely null — forward and
backward fill leave it untouched and the mean fallback fills with the
original column's mean, which is itself null. -/
theorem battery_all_null_fixed (l : List (Option ℚ)) (h : ∀ x ∈ l, x = none) :
    imputeBattery l = l := by
  have hff : ffillCol l = l := ffillAux_all_none l h
  have hbf : bfillCol l = l := by
    have := ffillAux_all_none l.reverse (fun x hx => h x (List.mem_reverse.mp hx))
    simp [bfillCol, this]
  have hm : colMean l = none := by
    simp [colMean, filterMap_id_all_none l h]
  unfold imputeBattery
  split
  · rw [hff, hbf, hm, fillConst_none]
  · rfl

/-- Witness for C10 at the all-null column `[null, null]`. -/
theorem battery_all_null_fixed_witness :
    (∀ x ∈ ([none, none] : List (Option ℚ)), x = none) ∧
    imputeBattery [none, none] = [none, none] :=
  ⟨by decide, battery_all_null_fixed [none, none] (by decide)⟩

/-- C4: with a configured range, `anomalous_reading` is true iff the
calibrated value is non-null and strictly outside `[min, max]`; without a
range, or on a null value, it is false; and in the orchestrated pipeline
`value_corrected` is a function of the calibrated group and value only, so
the flag never affects it. -/
theorem anomaly_flag_iff (t : String) (v : Option ℚ) (lo hi : ℚ)
    (hr : EXPECTED_RANGES t = some (lo, hi)) :
    (isAnom t v = true ↔ ∃ x, v = some x ∧ (x < lo ∨ hi < x)) ∧
    (∀ t' v', EXPECTED_RANGES t' = none → isAnom t' v' = false) ∧
    (∀ t', isAnom t' none = false) ∧
    (∀ parse rows r, (transformRow parse rows r).value_corrected =
        correctOf (groupCalib rows r) (calibOf r) ∧
      (transformRow parse rows r).anomalous_reading =
        isAnom (r.reading_type.getD "") (some (calibOf r))) := by
  refine ⟨?_, ?_, ?_, fun parse rows r => ⟨rfl, rfl⟩⟩
  · cases v with
    | none => simp [isAnom, hr]
    | some x => simp [isAnom, hr]
  · intro t' v' h
    cases v' <;> simp [isAnom, h]
  · intro t'
    cases h : EXPECTED_RANGES t' <;> simp [isAnom, h]

/-- Witness for C4 at temperature (range `[-10, 60]`) and calibrated
value 100. -/
theorem anomaly_flag_iff_witness :
    EXPECTED_RANGES "temperature" = some (-10, 60) ∧
    ((isAnom "temperature" (some 100) = true ↔
        ∃ x, (some 100 : Option ℚ) = some x ∧ (x < -10 ∨ 60 < x)) ∧
      (∀ t' v', EXPECTED_RANGES t' = none → isAnom t' v' = false) ∧
      (∀ t', isAnom t' none = false) ∧
      (∀ parse rows r, (transformRow parse rows r).value_corrected =
          correctOf (groupCalib rows r) (calibOf r) ∧
        (transformRow parse rows r).anomalous_reading =
          isAnom (r.reading_type.getD "") (some (calibOf r)))) :=
  ⟨by decide, anomaly_flag_iff "temperature" (some 100) (-10) 60 (by decide)⟩

/-- C6: the gap analysis on hours 00:00-05:00 (timestamps in minutes) with
hour 03:00 removed reports 6 expected, 5 actual, 1 missing; a series with
a single parsed observation reports zero missing hours; a series with no
parsed timestamp is absent from the result. -/
theorem gap_analysis_counts :
    gapStats [some 0, some 60, some 125, some 240, some 300] = some (6, 5, 1) ∧
    (∀ m : ℕ, gapStats [some m] = some (1, 1, 0)) ∧
    gapStats [none] = none ∧
    gapStats [] = none := by
  refine ⟨by decide, ?_, rfl, rfl⟩
  intro m
  simp [gapStats, truncHour]

/-- C7: a null or empty dataset passes through the orchestrator as an empty
dataset and short-circuits validation with no report, while any non-empty
dataset yields a report — the two outcomes are distinguishable. -/
theorem empty_input_short_circuits
    (rows : List VRow) (hne : rows ≠ []) :
    (∀ parse : String → Option ℤ, transform_data parse none = []) ∧
    (∀ parse : String → Option ℤ, transform_data parse (some []) = []) ∧
    (∀ parse : String → Option ℕ, validate_data parse none = none) ∧
    (∀ parse : String → Option ℕ, validate_data parse (some []) = none) ∧
    (∀ parse : String → Option ℕ,
      validate_data parse (some rows) = some (buildReport parse rows)) := by
  refine ⟨fun _ => rfl, fun _ => rfl, fun _ => rfl, fun _ => rfl, fun parse => ?_⟩
  simp [validate_data, hne]

/-- Witness for C7 at a one-row dataset. -/
theorem empty_input_short_circuits_witness :
    ([(⟨"s1", "temperature", none, none⟩ : VRow)] ≠ []) ∧
    ((∀ parse : String → Option ℤ, transform_data parse none = []) ∧
      (∀ parse : String → Option ℤ, transform_data parse (some []) = []) ∧
      (∀ parse : String → Option ℕ, validate_data parse none = none) ∧
      (∀ parse : String → Option ℕ, validate_data parse (some []) = none) ∧
      (∀ parse : String → Option ℕ,
        validate_data parse (some [⟨"s1", "temperature", none, none⟩]) =
          some (buildReport parse [⟨"s1", "temperature", none, none⟩]))) :=
  ⟨by simp, empty_input_short_circuits [⟨"s1", "temperature", none, none⟩] (by simp)⟩

theorem hour_floor_same_day (ls : ℤ) :
    (ls - ls % 3600) / 86400 = ls / 86400 := by
  omega

/-- C8 counterexample: on an unparsable raw timestamp the `date` column is
not null — `.dt.date.astype(str)` stringifies the null date to the
literal `"NaT"`. -/
theorem ts_unparsable_date_not_null : (tsProcess none).date ≠ none := by
  decide

/-- C8 (amended): an unparsable timestamp yields a null normalized
timestamp, null ISO string and null hour, while the `date` field becomes
the literal string `"NaT"`; for a parsable instant `t` all four derived
fields come from the same instant shifted to UTC+5:30 — the ISO string and
date render `t + istOffset`, and the hour is `t` floored to the IST hour
boundary (at most 3600 s below `t`, hour-aligned in IST, on the same IST
calendar day as the `date` field). -/
theorem ts_normalization_consistency :
    tsProcess none = ⟨none, none, some "NaT", none⟩ ∧
    (∀ t : ℤ, ∃ h : ℤ,
      tsProcess (some t) = ⟨some t, some (isoStr (t + istOffset)),
        some (dateStr ((t + istOffset) / 86400)), some h⟩ ∧
      h ≤ t ∧ t - h < 3600 ∧ (h + istOffset) % 3600 = 0 ∧
      (h + istOffset) / 86400 = (t + istOffset) / 86400) := by
  refine ⟨rfl, fun t => ⟨t - (t + istOffset) % 3600, rfl, ?_, ?_, ?_, ?_⟩⟩
  · omega
  · omega
  · omega
  · have heq : t - (t + istOffset) % 3600 + istOffset =
        (t + istOffset) - (t + istOffset) % 3600 := by ring
    rw [heq, hour_floor_same_day]

theorem getD_mem_of_lt {l : List ℚ} {i : ℕ} (h : i < l.length) :
    l.getD i 0 ∈ l := by
  rw [List.getD_eq_getElem l 0 h]
  exact List.getElem_mem h

theorem popVar_nonneg (l : List ℚ) : 0 ≤ popVar l := by
  unfold popVar
  apply div_nonneg
  · apply List.sum_nonneg
    intro x hx
    obtain ⟨y, _, rfl⟩ := List.mem_map.mp hx
    positivity
  · exact_mod_cast Nat.zero_le _

theorem sq_dev_le_card_mul_var (l : List ℚ) (v : ℚ) (hv : v ∈ l) :
    (v - popMean l) ^ 2 ≤ (l.length : ℚ) * popVar l := by
  have hne : l ≠ [] := List.ne_nil_of_mem hv
  have hpos : 0 < l.length := List.length_pos.mpr hne
  have hn : (l.length : ℚ) ≠ 0 := by
    exact_mod_cast hpos.ne'
  have hrw : (l.length : ℚ) * popVar l =
      (l.map (fun x => (x - popMean l) ^ 2)).sum := by
    unfold popVar
    field_simp
  rw [hrw]
  refine List.single_le_sum (fun x hx => ?_) _ (List.mem_map_of_mem _ hv)
  obtain ⟨y, _, rfl⟩ := List.mem_map.mp hx
  positivity

theorem dev_eq_zero_of_var_zero (l : List ℚ) (v : ℚ) (hv : v ∈ l)
    (h : popVar l = 0) : v = popMean l := by
  have h1 := sq_dev_le_card_mul_var l v hv
  rw [h, mul_zero] at h1
  have h2 : (v - popMean l) ^ 2 = 0 := le_antisymm h1 (sq_nonneg _)
  have h3 : v - popMean l = 0 := by
    exact pow_eq_zero_iff (by norm_num) |>.mp h2
  linarith

theorem abs_dev_le_three_std (l : List ℚ) (v : ℚ) (hv : v ∈ l)
    (hn : l.length ≤ 9) :
    |(v : ℝ) - (popMean l : ℝ)| ≤ 3 * popStd l := by
  have h1 : ((v - popMean l : ℚ) : ℝ) ^ 2 ≤
      ((l.length : ℚ) : ℝ) * ((popVar l : ℚ) : ℝ) := by
    exact_mod_cast sq_dev_le_card_mul_var l v hv
  have hvn : (0 : ℝ) ≤ (popVar l : ℝ) := by exact_mod_cast popVar_nonneg l
  have h2 : ((l.length : ℚ) : ℝ) * ((popVar l : ℚ) : ℝ) ≤ 9 * (popVar l : ℝ) := by
    apply mul_le_mul_of_nonneg_right _ hvn
    have : (l.length : ℝ) ≤ 9 := by exact_mod_cast hn
    push_cast
    linarith
  have h3 : ((v : ℝ) - (popMean l : ℝ)) ^ 2 ≤ 9 * (popVar l : ℝ) := by
    push_cast at h1 h2
    linarith
  have h4 : |(v : ℝ) - (popMean l : ℝ)| =
      Real.sqrt (((v : ℝ) - (popMean l : ℝ)) ^ 2) :=
    (Real.sqrt_sq_eq_abs _).symm
  rw [h4]
  calc Real.sqrt (((v : ℝ) - (popMean l : ℝ)) ^ 2)
      ≤ Real.sqrt (9 * (popVar l : ℝ)) := Real.sqrt_le_sqrt h3
    _ = 3 * popStd l := by
        unfold popStd
        rw [show (9 : ℝ) = 3 ^ 2 by norm_num,
          Real.sqrt_mul (by positivity) ((popVar l : ℚ) : ℝ),
          Real.sqrt_sq (by norm_num : (0:ℝ) ≤ 3)]

theorem clip_eq_self (x lo hi : ℝ) (h1 : lo ≤ x) (h2 : x ≤ hi) :
    clip x lo hi = x := by
  unfold clip
  rw [max_eq_left h1, min_eq_left h2]

theorem var_singleton_zero (a : ℚ) : popVar [a] = 0 := by
  simp [popVar, popMean]

/-- C1: the outlier stage drops no rows; every corrected value lies in
`[μ − 3σ, μ + 3σ]` of its reading-type group; and when the group's
population std is 0 or the group has fewer than 3 members the corrected
value equals the calibrated value and the zscore is 0. -/
theorem outlier_corrected_within_bounds (l : List ℚ) (i : ℕ)
    (hi : i < l.length) :
    (l.map (fun v => correctOf l v)).length = l.length ∧
    ((popMean l : ℝ) - 3 * popStd l ≤ correctOf l (l.getD i 0) ∧
      correctOf l (l.getD i 0) ≤ (popMean l : ℝ) + 3 * popStd l) ∧
    (popVar l = 0 ∨ l.length < 3 →
      correctOf l (l.getD i 0) = ((l.getD i 0 : ℚ) : ℝ) ∧
        zscoreOf l (l.getD i 0) = 0) := by
  have hv : l.getD i 0 ∈ l := getD_mem_of_lt hi
  have hne0 : l.length ≠ 0 := by
    intro h
    rw [h] at hi
    exact Nat.not_lt_zero i hi
  have hstd : 0 ≤ popStd l := Real.sqrt_nonneg _
  refine ⟨List.length_map _ _, ?_, ?_⟩
  · by_cases hdeg : l.length = 0 ∨ popVar l = 0
    · have hvar : popVar l = 0 := hdeg.resolve_left hne0
      have hmu : l.getD i 0 = popMean l := dev_eq_zero_of_var_zero l _ hv hvar
      have hsig : popStd l = 0 := by
        simp [popStd, hvar]
      unfold correctOf
      rw [if_pos hdeg, hmu, hsig]
      norm_num
    · unfold correctOf
      rw [if_neg hdeg]
      unfold clip
      constructor
      · refine le_min (le_max_right _ _) ?_
        linarith
      · exact min_le_right _ _
  · intro hcase
    have hz : zscoreOf l (l.getD i 0) = 0 := by
      unfold zscoreOf
      rw [if_pos hcase]
    refine ⟨?_, hz⟩
    by_cases hvar : popVar l = 0
    · unfold correctOf
      rw [if_pos (Or.inr hvar)]
    · have hlen : l.length < 3 := hcase.resolve_left hvar
      have hb := abs_dev_le_three_std l _ hv (by omega)
      rw [abs_le] at hb
      unfold correctOf
      rw [if_neg (by push_neg; exact ⟨hne0, hvar⟩)]
      exact clip_eq_self _ _ _ (by linarith [hb.1]) (by linarith [hb.2])

/-- Witness for C1 at the three-member temperature-like group
`[1, 2, 100]` and its first row. -/
theorem outlier_corrected_within_bounds_witness :
    (0 < ([1, 2, 100] : List ℚ).length) ∧
    ((([1, 2, 100] : List ℚ).map
        (fun v => correctOf [1, 2, 100] v)).length =
          ([1, 2, 100] : List ℚ).length ∧
      ((popMean [1, 2, 100] : ℝ) - 3 * popStd [1, 2, 100] ≤
          correctOf [1, 2, 100] (([1, 2, 100] : List ℚ).getD 0 0) ∧
        correctOf [1, 2, 100] (([1, 2, 100] : List ℚ).getD 0 0) ≤
          (popMean [1, 2, 100] : ℝ) + 3 * popStd [1, 2, 100]) ∧
      (popVar [1, 2, 100] = 0 ∨ ([1, 2, 100] : List ℚ).length < 3 →
        correctOf [1, 2, 100] (([1, 2, 100] : List ℚ).getD 0 0) =
            ((([1, 2, 100] : List ℚ).getD 0 0 : ℚ) : ℝ) ∧
          zscoreOf [1, 2, 100] (([1, 2, 100] : List ℚ).getD 0 0) = 0)) :=
  ⟨by decide, outlier_corrected_within_bounds [1, 2, 100] 0 (by decide)⟩

theorem rolling7_length {α : Type} [Field α] (l : List α) :
    (rolling7 l).length = l.length := by
  simp [rolling7]

theorem rolling7_getD {α : Type} [Field α] (l : List α) (i : ℕ)
    (hi : i < l.length) :
    (rolling7 l).getD i 0 = listMean (window7 l i) := by
  unfold rolling7
  rw [List.getD_eq_getElem _ 0 (by simpa using hi)]
  simp

theorem rolling7_head {α : Type} [Field α] (x : α) (xs : List α) :
    (rolling7 (x :: xs)).getD 0 0 = x := by
  rw [rolling7_getD _ 0 (by simp)]
  simp [window7, listMean]

/-- C3: `rolling_7d` over a (sensor, reading_type) series is the trailing
mean of `daily_avg` over the current plus up to 6 preceding entries of the
date-sorted series of distinct dates present, with minimum window 1; the
first chronological entry's value is its own `daily_avg`; and the stage
broadcasts a value to every row as a function of its
(sensor, reading_type, date) key. -/
theorem rolling_window_semantics {α : Type} [Field α] (rows : List (ARow α))
    (s t d0 : String) (l : List α) (i : ℕ) (hi : i < l.length)
    (hd0 : (dailySeries rows s t).head? = some d0) :
    (rolling7 l).length = l.length ∧
    (rolling7 l).getD i 0 = listMean ((l.take (i + 1)).drop (i + 1 - 7)) ∧
    rollingAt rows s t d0 = dailyAvg rows s t d0 ∧
    (aggStage rows).length = rows.length ∧
    (∀ r ∈ rows,
      (r, dailyAvg rows r.sensor r.rtype r.date,
        rollingAt rows r.sensor r.rtype r.date) ∈ aggStage rows) := by
  obtain ⟨rest, hser⟩ : ∃ rest, dailySeries rows s t = d0 :: rest := by
    cases hs : dailySeries rows s t with
    | nil => rw [hs] at hd0; simp at hd0
    | cons a tl =>
      rw [hs] at hd0
      simp only [List.head?_cons, Option.some.injEq] at hd0
      exact ⟨tl, by rw [hd0]⟩
  refine ⟨rolling7_length l, rolling7_getD l i hi, ?_, List.length_map _ _, ?_⟩
  · unfold rollingAt
    rw [hser, List.indexOf_cons_self, List.map_cons, rolling7_head]
  · intro r hr
    exact List.mem_map_of_mem _ hr

/-- Witness for C3: a one-date two-row series, a two-entry rolling input,
and its second position. -/
theorem rolling_window_semantics_witness :
    ((1 : ℕ) < ([3, 5] : List ℚ).length ∧
      (dailySeries [(⟨"s", "temperature", "2024-01-05", (10:ℚ)⟩ : ARow ℚ),
          ⟨"s", "temperature", "2024-01-05", 20⟩] "s" "temperature").head? =
        some "2024-01-05") ∧
    ((rolling7 ([3, 5] : List ℚ)).length = ([3, 5] : List ℚ).length ∧
      (rolling7 ([3, 5] : List ℚ)).getD 1 0 =
        listMean ((([3, 5] : List ℚ).take (1 + 1)).drop (1 + 1 - 7)) ∧
      rollingAt [(⟨"s", "temperature", "2024-01-05", (10:ℚ)⟩ : ARow ℚ),
          ⟨"s", "temperature", "2024-01-05", 20⟩] "s" "temperature"
          "2024-01-05" =
        dailyAvg [(⟨"s", "temperature", "2024-01-05", (10:ℚ)⟩ : ARow ℚ),
          ⟨"s", "temperature", "2024-01-05", 20⟩] "s" "temperature"
          "2024-01-05" ∧
      (aggStage [(⟨"s", "temperature", "2024-01-05", (10:ℚ)⟩ : ARow ℚ),
          ⟨"s", "temperature", "2024-01-05", 20⟩]).length =
        ([(⟨"s", "temperature", "2024-01-05", (10:ℚ)⟩ : ARow ℚ),
          ⟨"s", "temperature", "2024-01-05", 20⟩] : List (ARow ℚ)).length ∧
      (∀ r ∈ [(⟨"s", "temperature", "2024-01-05", (10:ℚ)⟩ : ARow ℚ),
          ⟨"s", "temperature", "2024-01-05", 20⟩],
        (r, dailyAvg [(⟨"s", "temperature", "2024-01-05", (10:ℚ)⟩ : ARow ℚ),
            ⟨"s", "temperature", "2024-01-05", 20⟩] r.sensor r.rtype r.date,
          rollingAt [(⟨"s", "temperature", "2024-01-05", (10:ℚ)⟩ : ARow ℚ),
            ⟨"s", "temperature", "2024-01-05", 20⟩] r.sensor r.rtype r.date) ∈
          aggStage [(⟨"s", "temperature", "2024-01-05", (10:ℚ)⟩ : ARow ℚ),
            ⟨"s", "temperature", "2024-01-05", 20⟩])) :=
  ⟨⟨by decide, by decide⟩,
    rolling_window_semantics
      [⟨"s", "temperature", "2024-01-05", (10:ℚ)⟩,
        ⟨"s", "temperature", "2024-01-05", 20⟩]
      "s" "temperature" "2024-01-05" [3, 5] 1 (by decide) (by decide)⟩

/-- C5: the aggregation stage retains every row; each row's `daily_avg` is
the mean of `value_corrected` over exactly its (sensor, reading_type,
date) group; and rows sharing the group key carry identical values. -/
theorem daily_avg_group_mean {α : Type} [Field α] (rows : List (ARow α))
    (r r' : ARow α) (hr : r ∈ rows) (hr' : r' ∈ rows)
    (hs : r.sensor = r'.sensor) (ht : r.rtype = r'.rtype)
    (hd : r.date = r'.date) :
    (aggStage rows).length = rows.length ∧
    (r, dailyAvg rows r.sensor r.rtype r.date,
      rollingAt rows r.sensor r.rtype r.date) ∈ aggStage rows ∧
    dailyAvg rows r.sensor r.rtype r.date =
      listMean ((groupRows rows r.sensor r.rtype r.date).map
        (fun x => x.value)) ∧
    dailyAvg rows r.sensor r.rtype r.date =
      dailyAvg rows r'.sensor r'.rtype r'.date ∧
    (∀ p ∈ aggStage rows, p.1 ∈ rows ∧
      p.2.1 = dailyAvg rows p.1.sensor p.1.rtype p.1.date) := by
  refine ⟨List.length_map _ _, List.mem_map_of_mem _ hr, rfl, ?_, ?_⟩
  · rw [hs, ht, hd]
  · intro p hp
    obtain ⟨x, hx, rfl⟩ := List.mem_map.mp hp
    exact ⟨hx, rfl⟩

/-- Witness for C5 at two rows of one (sensor, type, date) group. -/
theorem daily_avg_group_mean_witness :
    ((⟨"a", "t", "d", (4:ℚ)⟩ : ARow ℚ) ∈
        [(⟨"a", "t", "d", (4:ℚ)⟩ : ARow ℚ), ⟨"a", "t", "d", 6⟩] ∧
      (⟨"a", "t", "d", (6:ℚ)⟩ : ARow ℚ) ∈
        [(⟨"a", "t", "d", (4:ℚ)⟩ : ARow ℚ), ⟨"a", "t", "d", 6⟩]) ∧
    ((aggStage [(⟨"a", "t", "d", (4:ℚ)⟩ : ARow ℚ), ⟨"a", "t", "d", 6⟩]).length =
        ([(⟨"a", "t", "d", (4:ℚ)⟩ : ARow ℚ), ⟨"a", "t", "d", 6⟩] :
          List (ARow ℚ)).length ∧
      ((⟨"a", "t", "d", (4:ℚ)⟩ : ARow ℚ),
        dailyAvg [(⟨"a", "t", "d", (4:ℚ)⟩ : ARow ℚ), ⟨"a", "t", "d", 6⟩]
          "a" "t" "d",
        rollingAt [(⟨"a", "t", "d", (4:ℚ)⟩ : ARow ℚ), ⟨"a", "t", "d", 6⟩]
          "a" "t" "d") ∈
        aggStage [(⟨"a", "t", "d", (4:ℚ)⟩ : ARow ℚ), ⟨"a", "t", "d", 6⟩] ∧
      dailyAvg [(⟨"a", "t", "d", (4:ℚ)⟩ : ARow ℚ), ⟨"a", "t", "d", 6⟩]
          "a" "t" "d" =
        listMean ((groupRows [(⟨"a", "t", "d", (4:ℚ)⟩ : ARow ℚ),
          ⟨"a", "t", "d", 6⟩] "a" "t" "d").map (fun x => x.value)) ∧
      dailyAvg [(⟨"a", "t", "d", (4:ℚ)⟩ : ARow ℚ), ⟨"a", "t", "d", 6⟩]
          "a" "t" "d" =
        dailyAvg [(⟨"a", "t", "d", (4:ℚ)⟩ : ARow ℚ), ⟨"a", "t", "d", 6⟩]
          "a" "t" "d" ∧
      (∀ p ∈ aggStage [(⟨"a", "t", "d", (4:ℚ)⟩ : ARow ℚ), ⟨"a", "t", "d", 6⟩],
        p.1 ∈ [(⟨"a", "t", "d", (4:ℚ)⟩ : ARow ℚ), ⟨"a", "t", "d", 6⟩] ∧
        p.2.1 = dailyAvg [(⟨"a", "t", "d", (4:ℚ)⟩ : ARow ℚ), ⟨"a", "t", "d", 6⟩]
          p.1.sensor p.1.rtype p.1.date)) :=
  ⟨⟨by decide, by decide⟩,
    daily_avg_group_mean [⟨"a", "t", "d", 4⟩, ⟨"a", "t", "d", 6⟩]
      ⟨"a", "t", "d", 4⟩ ⟨"a", "t", "d", 6⟩
      (by decide) (by decide) rfl rfl rfl⟩

end AgriPipeline
